import Mathlib

/-!
Verification development for the mock conversational-backend server in
`src/server/fastapi_server.py`.

The Python server is embedded shallowly: JSON-style values become the
inductive type `Value` (with numbers restricted to integers, since every
numeric literal in the repository's data tables is an integer), Python
dicts become association lists in insertion order (Python dicts preserve
insertion order), and Python expressions that can raise become
`Option`/`Except`-valued functions.  Real time, network transport and the
NDJSON wire encoding are not modeled; the properties below are stated at
the level of the parsed inputs and the structured events/responses the
handlers produce.
-/

set_option maxHeartbeats 1000000

namespace CitiForge

/-- JSON-style values manipulated by the server.  Numbers are restricted
to integers: every numeric value in the repository's dashboard tables is
an integer, and no claim involves non-integral numbers. -/
inductive Value where
  | vNull
  | vBool (b : Bool)
  | vInt (n : Int)
  | vStr (s : String)
  | vList (items : List Value)
  | vDict (entries : List (String × Value))

/-- A Python dict with string keys, in insertion order (Python dicts
preserve insertion order, and `.items()` iterates in that order). -/
abbrev Row := List (String × Value)

/-- Lookup of a key in an insertion-ordered dict (first occurrence). -/
def dict_lookup {α : Type} (entries : List (String × α)) (key : String) : Option α :=
  match entries with
  | [] => none
  | (k, v) :: rest => if k = key then some v else dict_lookup rest key

/-- Python `row.get(key)`: the stored value, or `None` when the key is
absent. -/
def py_get (row : Row) (key : String) : Value :=
  (dict_lookup row key).getD .vNull

/-- Python `row.get(key, default)`: the stored value (even when it is
`None`), or `default` when the key is absent. -/
def py_get_default (row : Row) (key : String) (default : Value) : Value :=
  (dict_lookup row key).getD default

/-- Python `float()` / `int()` applied to a modeled value: succeeds on
ints and bools (`bool` is a subclass of `int` in Python, so
`isinstance(x, (int, float))` accepts it and `float(True) = 1.0`), and
raises (`none`) on `None`, strings, lists and dicts.  Python's
numeric-string coercion (`float("5")`) is outside the model; no data or
claim in this repository involves numeric strings. -/
def to_number : Value → Option Int
  | .vInt n => some n
  | .vBool b => some (if b then 1 else 0)
  | _ => none

/-- Python `isinstance(v, (int, float))` (true for bools as well). -/
def is_number : Value → Bool
  | .vInt _ => true
  | .vBool _ => true
  | _ => false

/-- Python truthiness of a value (used by `x or y`). -/
def py_truthy : Value → Bool
  | .vNull => false
  | .vBool b => b
  | .vInt n => n != 0
  | .vStr s => s != ""
  | .vList items => !items.isEmpty
  | .vDict entries => !entries.isEmpty

mutual

/-- Python `repr()` of a value (used by `str()` on lists and dicts).
Escaping of quotes/backslashes inside string reprs is not modeled; no
claim depends on the repr of strings containing quotes. -/
def py_repr : Value → String
  | .vNull => "None"
  | .vBool b => if b then "True" else "False"
  | .vInt n => toString n
  | .vStr s => "'" ++ s ++ "'"
  | .vList items => "[" ++ String.intercalate ", " (py_repr_list items) ++ "]"
  | .vDict entries => "\x7b" ++ String.intercalate ", " (py_repr_entries entries) ++ "\x7d"

def py_repr_list : List Value → List String
  | [] => []
  | v :: rest => py_repr v :: py_repr_list rest

def py_repr_entries : List (String × Value) → List String
  | [] => []
  | (k, v) :: rest => ("'" ++ k ++ "': " ++ py_repr v) :: py_repr_entries rest

end

/-- Python `str()` of a value. -/
def py_str : Value → String
  | .vNull => "None"
  | .vBool b => if b then "True" else "False"
  | .vInt n => toString n
  | .vStr s => s
  | v => py_repr v

/-- ASCII lowercasing of one character. -/
def lower_ascii (c : Char) : Char :=
  if 'A' ≤ c && c ≤ 'Z' then Char.ofNat (c.toNat + 32) else c

/-- Python `str.lower()`, modeled for ASCII (every lowercasing in the
server is applied before matching ASCII keywords such as "risk"). -/
def py_lower (s : String) : String := ⟨s.data.map lower_ascii⟩

/-- Substring test on character lists. -/
def list_has_sub (needle : List Char) : List Char → Bool
  | [] => needle.isEmpty
  | c :: rest => List.isPrefixOf needle (c :: rest) || list_has_sub needle rest

/-- Python `needle in haystack` substring test. -/
def py_in (needle haystack : String) : Bool :=
  list_has_sub needle.data haystack.data

/-- ASCII whitespace (Python `str.strip()` also strips these; non-ASCII
whitespace does not occur in the repository's data). -/
def is_space (c : Char) : Bool :=
  c == ' ' || c == '\t' || c == '\n' || c == '\r' || c == '\x0b' || c == '\x0c'

/-- Python `str.strip()` (whitespace trimming at both ends). -/
def py_strip (s : String) : String :=
  ⟨((s.data.dropWhile is_space).reverse.dropWhile is_space).reverse⟩

/-- Python `s1 <= s2` on strings: code-point lexicographic order (the
same order Lean's `String` instances define, restated on character lists
so that it evaluates by kernel reduction). -/
def str_le_chars : List Char → List Char → Bool
  | [], _ => true
  | _ :: _, [] => false
  | a :: as, b :: bs => if a = b then str_le_chars as bs else decide (a < b)

/-- Code-point lexicographic `<=` on strings. -/
def py_str_le (a b : String) : Bool := str_le_chars a.data b.data

/-! ## Dashboard data sources (`DASHBOARD_DATA_SOURCES`) -/

/-- One entry of `DASHBOARD_DATA_SOURCES`: a label, the static filter
schema, and the data rows. -/
structure SourceRecord where
  label : String
  «schema» : List (String × List String)
  rows : List Row

/-- The `"global-trade"` data source. -/
def global_trade : SourceRecord where
  label := "Global Trade Overview"
  «schema» :=
    [("imports_exports", ["All", "Imports", "Exports"]),
     ("industries", ["All", "Automotive", "Electronics", "Pharma", "Energy"]),
     ("products",
       ["All", "Trade Finance", "Supply Chain Finance", "Commodity Credit",
        "Cross-border Payments"])]
  rows :=
    [[("name", .vStr "Jan"), ("imports_exports", .vStr "Imports"),
      ("industries", .vStr "Electronics"), ("products", .vStr "Trade Finance"),
      ("region", .vStr "APAC"), ("country", .vStr "India"),
      ("value", .vInt 4100), ("prev", .vInt 3800)],
     [("name", .vStr "Feb"), ("imports_exports", .vStr "Exports"),
      ("industries", .vStr "Electronics"), ("products", .vStr "Cross-border Payments"),
      ("region", .vStr "EMEA"), ("country", .vStr "Germany"),
      ("value", .vInt 4300), ("prev", .vInt 4020)],
     [("name", .vStr "Mar"), ("imports_exports", .vStr "Imports"),
      ("industries", .vStr "Automotive"), ("products", .vStr "Supply Chain Finance"),
      ("region", .vStr "APAC"), ("country", .vStr "Japan"),
      ("value", .vInt 4550), ("prev", .vInt 4200)],
     [("name", .vStr "Apr"), ("imports_exports", .vStr "Exports"),
      ("industries", .vStr "Pharma"), ("products", .vStr "Trade Finance"),
      ("region", .vStr "Americas"), ("country", .vStr "USA"),
      ("value", .vInt 4700), ("prev", .vInt 4400)],
     [("name", .vStr "May"), ("imports_exports", .vStr "Imports"),
      ("industries", .vStr "Energy"), ("products", .vStr "Commodity Credit"),
      ("region", .vStr "EMEA"), ("country", .vStr "UAE"),
      ("value", .vInt 5200), ("prev", .vInt 4880)],
     [("name", .vStr "Jun"), ("imports_exports", .vStr "Exports"),
      ("industries", .vStr "Automotive"), ("products", .vStr "Supply Chain Finance"),
      ("region", .vStr "Americas"), ("country", .vStr "Mexico"),
      ("value", .vInt 5450), ("prev", .vInt 5100)],
     [("name", .vStr "Jul"), ("imports_exports", .vStr "Imports"),
      ("industries", .vStr "Pharma"), ("products", .vStr "Cross-border Payments"),
      ("region", .vStr "APAC"), ("country", .vStr "Singapore"),
      ("value", .vInt 5680), ("prev", .vInt 5300)]]

/-- The `"manufacturing-risk"` data source. -/
def manufacturing_risk : SourceRecord where
  label := "Manufacturing Risk Lens"
  «schema» :=
    [("imports_exports", ["All", "Imports", "Exports"]),
     ("industries", ["All", "Metals", "Chemicals", "Industrial Goods", "Textiles"]),
     ("products",
       ["All", "Letters of Credit", "Insurance", "Factoring", "Receivables"])]
  rows :=
    [[("name", .vStr "Jan"), ("imports_exports", .vStr "Imports"),
      ("industries", .vStr "Metals"), ("products", .vStr "Letters of Credit"),
      ("region", .vStr "EMEA"), ("country", .vStr "Turkey"),
      ("value", .vInt 3600), ("prev", .vInt 3400)],
     [("name", .vStr "Feb"), ("imports_exports", .vStr "Exports"),
      ("industries", .vStr "Chemicals"), ("products", .vStr "Insurance"),
      ("region", .vStr "APAC"), ("country", .vStr "China"),
      ("value", .vInt 3900), ("prev", .vInt 3650)],
     [("name", .vStr "Mar"), ("imports_exports", .vStr "Imports"),
      ("industries", .vStr "Industrial Goods"), ("products", .vStr "Factoring"),
      ("region", .vStr "Americas"), ("country", .vStr "Brazil"),
      ("value", .vInt 4200), ("prev", .vInt 3850)],
     [("name", .vStr "Apr"), ("imports_exports", .vStr "Exports"),
      ("industries", .vStr "Textiles"), ("products", .vStr "Receivables"),
      ("region", .vStr "APAC"), ("country", .vStr "Vietnam"),
      ("value", .vInt 4380), ("prev", .vInt 4100)],
     [("name", .vStr "May"), ("imports_exports", .vStr "Imports"),
      ("industries", .vStr "Chemicals"), ("products", .vStr "Insurance"),
      ("region", .vStr "EMEA"), ("country", .vStr "Poland"),
      ("value", .vInt 4620), ("prev", .vInt 4300)],
     [("name", .vStr "Jun"), ("imports_exports", .vStr "Exports"),
      ("industries", .vStr "Metals"), ("products", .vStr "Letters of Credit"),
      ("region", .vStr "Americas"), ("country", .vStr "Canada"),
      ("value", .vInt 4850), ("prev", .vInt 4500)],
     [("name", .vStr "Jul"), ("imports_exports", .vStr "Imports"),
      ("industries", .vStr "Industrial Goods"), ("products", .vStr "Factoring"),
      ("region", .vStr "APAC"), ("country", .vStr "Thailand"),
      ("value", .vInt 5080), ("prev", .vInt 4720)]]

/-- `DASHBOARD_DATA_SOURCES`, as an insertion-ordered dict. -/
def DASHBOARD_DATA_SOURCES : List (String × SourceRecord) :=
  [("global-trade", global_trade), ("manufacturing-risk", manufacturing_risk)]

/-- `get_dashboard_source`: `DASHBOARD_DATA_SOURCES.get(source_id) or
DASHBOARD_DATA_SOURCES["global-trade"]`.  A found record is a non-empty
dict, hence truthy, so `or` only fires the fallback when the lookup
returns `None`. -/
def get_dashboard_source (source_id : String) : SourceRecord :=
  match dict_lookup DASHBOARD_DATA_SOURCES source_id with
  | some record => record
  | none => global_trade

/-! ## `apply_dashboard_filters` -/

/-- Python `value in (None, "", "All")` (membership via `==`; only `None`
equals `None`, and only the literal strings equal `""` / `"All"`). -/
def is_inactive_filter : Value → Bool
  | .vNull => true
  | .vStr s => s == "" || s == "All"
  | _ => false

/-- The chained comparison `float(lower) <= x <= float(upper)` for a row
value `x` already known to be numeric.  Python evaluates `float(lower)`
first (raising on a non-convertible bound), and evaluates `float(upper)`
only when the first comparison holds. -/
def range_bounds_check (lower upper : Value) (x : Int) : Except Unit Bool :=
  match to_number lower with
  | none => .error ()
  | some l =>
    if l ≤ x then
      match to_number upper with
      | none => .error ()
      | some u => .ok (decide (x ≤ u))
    else .ok false

/-- One numeric-range filtering pass:
`[row for row in filtered if isinstance(row.get(key), (int, float)) and
float(lower) <= float(row.get(key)) <= float(upper)]`.
Rows whose value at `key` is not numeric are dropped without touching the
bounds (the `and` short-circuits); a non-convertible bound raises at the
first numeric row. -/
def range_filter (key : String) (lower upper : Value) : List Row → Except Unit (List Row)
  | [] => .ok []
  | row :: rest =>
    match to_number (py_get row key) with
    | none => range_filter key lower upper rest
    | some x =>
      match range_bounds_check lower upper x with
      | .error e => .error e
      | .ok keep => do
        let tail ← range_filter key lower upper rest
        pure (if keep then row :: tail else tail)

/-- One string-equality filtering pass:
`[row for row in filtered if str(row.get(key)) == str(value)]`. -/
def eq_filter (key : String) (value : Value) (rows : List Row) : List Row :=
  rows.filter (fun row => py_str (py_get row key) == py_str value)

/-- The body of one iteration of the loop in `apply_dashboard_filters`:
an inactive value (`None`/`""`/`"All"`) is skipped; a two-element list or
a dict with both `"min"` and `"max"` keys performs a numeric-range pass;
every other value performs a string-equality pass. -/
def apply_one_filter (rows : List Row) (key : String) (value : Value) :
    Except Unit (List Row) :=
  if is_inactive_filter value then .ok rows
  else
    match value with
    | .vList [lower, upper] => range_filter key lower upper rows
    | .vDict entries =>
      if (dict_lookup entries "min").isSome && (dict_lookup entries "max").isSome then
        range_filter key ((dict_lookup entries "min").getD .vNull)
          ((dict_lookup entries "max").getD .vNull) rows
      else .ok (eq_filter key value rows)
    | _ => .ok (eq_filter key value rows)

/-- `apply_dashboard_filters(rows, filters)`: left-to-right fold of the
filter entries over the row list (a raised conversion error aborts the
whole call, as a Python exception would). -/
def apply_dashboard_filters (rows : List Row) (filters : List (String × Value)) :
    Except Unit (List Row) :=
  match filters with
  | [] => .ok rows
  | (key, value) :: rest => do
    let next ← apply_one_filter rows key value
    apply_dashboard_filters next rest

/-- Spec-side predicate for one filter entry, following the claim's
words: an inactive entry (`None`/`""`/`"All"`) keeps every row; a
two-element list, or a dict with both `"min"` and `"max"`, keeps a row
iff the row's value at the key is numeric and lies within the closed
interval of the converted bounds; every other entry keeps a row iff the
string forms coincide.  (Stated with `to_number` on the bounds; under
`filter_bounds_ok` both conversions succeed.) -/
def range_keeps (key : String) (lower upper : Value) (row : Row) : Bool :=
  match to_number (py_get row key), to_number lower, to_number upper with
  | some x, some l, some u => decide (l ≤ x) && decide (x ≤ u)
  | _, _, _ => false

/-- Spec-side "row satisfies the filter entry" predicate (see
`range_keeps`). -/
def claim_keeps (key : String) (value : Value) (row : Row) : Bool :=
  if is_inactive_filter value then true
  else
    match value with
    | .vList [lower, upper] => range_keeps key lower upper row
    | .vDict entries =>
      if (dict_lookup entries "min").isSome && (dict_lookup entries "max").isSome then
        range_keeps key ((dict_lookup entries "min").getD .vNull)
          ((dict_lookup entries "max").getD .vNull) row
      else py_str (py_get row key) == py_str value
    | _ => py_str (py_get row key) == py_str value

/-- A filter value whose numeric-range bounds (if it is range-shaped)
both convert to numbers. -/
def filter_bounds_ok : Value → Bool
  | .vList [lower, upper] => (to_number lower).isSome && (to_number upper).isSome
  | .vDict entries =>
    if (dict_lookup entries "min").isSome && (dict_lookup entries "max").isSome then
      (to_number ((dict_lookup entries "min").getD .vNull)).isSome &&
        (to_number ((dict_lookup entries "max").getD .vNull)).isSome
    else true
  | _ => true

/-- All range-shaped filter entries have convertible bounds. -/
def filters_ok (filters : List (String × Value)) : Bool :=
  filters.all (fun kv => filter_bounds_ok kv.2)

/-! ## `build_dashboard_response` -/

/-- `int(row.get(key, 0))` for each row, left to right; the first
non-convertible value raises. -/
def int_field_values (key : String) : List Row → Except Unit (List Int)
  | [] => .ok []
  | row :: rest =>
    match to_number (py_get_default row key (.vInt 0)) with
    | none => .error ()
    | some n => do
      let tail ← int_field_values key rest
      pure (n :: tail)

/-- Every row's value at `key` (defaulting to `0` when the key is
absent) converts under `int()`.  This holds for every row list the
server ever aggregates: the widget builders only receive (filtered
subsets of) the hardcoded data-source tables, whose `value` and `prev`
fields are integers. -/
def rows_values_numeric (key : String) (rows : List Row) : Bool :=
  rows.all (fun row => (to_number (py_get_default row key (.vInt 0))).isSome)

/-- The per-row `int(row.get(key, 0))` value, once every conversion is
known to succeed. -/
def int_field_value (key : String) (row : Row) : Int :=
  (to_number (py_get_default row key (.vInt 0))).getD 0

/-- Python `min(list)` on a non-empty list (left fold; unreachable for
`[]` in the server, which guards the empty case separately). -/
def list_min (values : List Int) : Int :=
  match values with
  | [] => 0
  | v :: rest => rest.foldl min v

/-- Python `max(list)` on a non-empty list. -/
def list_max (values : List Int) : Int :=
  match values with
  | [] => 0
  | v :: rest => rest.foldl max v

/-- The grouping column used by the `"pie"` widget: the first key of the
first row whose value is a string and whose key is not `"name"`, falling
back to `"industries"`. -/
def pie_group_column (rows : List Row) : String :=
  match rows with
  | [] => "industries"
  | sample :: _ =>
    match sample.filter (fun kv =>
        (match kv.2 with | .vStr _ => true | _ => false) && kv.1 != "name") with
    | [] => "industries"
    | (k, _) :: _ => k

/-- `str(row.get(group_column) or "Unknown")`: the row's value at the
group column when truthy, else the string `"Unknown"`. -/
def pie_group_value (group_column : String) (row : Row) : String :=
  let v := py_get row group_column
  py_str (if py_truthy v then v else .vStr "Unknown")

/-- The total `value` of the rows whose group value is `k` (spec-side
description of one pie slice). -/
def group_sum (group_column : String) (k : String) (rows : List Row) : Int :=
  ((rows.filter (fun row => pie_group_value group_column row == k)).map
    (int_field_value "value")).sum

/-- `grouped[gv] = grouped.get(gv, 0) + n` on an insertion-ordered dict:
an existing key is updated in place, a new key is appended. -/
def add_group (acc : List (String × Int)) (key : String) (n : Int) :
    List (String × Int) :=
  match acc with
  | [] => [(key, n)]
  | (k, m) :: rest =>
    if k = key then (k, m + n) :: rest else (k, m) :: add_group rest key n

/-- The grouping loop of the `"pie"` widget. -/
def pie_groups (group_column : String) (acc : List (String × Int)) :
    List Row → Except Unit (List (String × Int))
  | [] => .ok acc
  | row :: rest =>
    match to_number (py_get_default row "value" (.vInt 0)) with
    | none => .error ()
    | some n =>
      pie_groups group_column (add_group acc (pie_group_value group_column row) n) rest

/-- One entry of the `"pie"` widget result.  The Python keys are
`name`, `value`, `_filterKey` and `_filterValue`. -/
structure PieEntry where
  name : String
  value : Int
  filterKey : String
  filterValue : String
deriving Repr, DecidableEq

/-- The `"kpi"` widget computation.  The endpoint formats these numbers
into display strings (`f"${total_current:,.0f}M"` or, when the prompt
contains "risk", a normalized `f"{n}/100"` score, and
`f"{sign}{change_pct:.1f}%"`); the float-string formatting is
presentation only and is not modeled, all the numbers it is applied to
are recorded in this structure. -/
structure KpiResult where
  totalCurrent : Int
  totalPrev : Int
  changePct : ℚ
  positive : Bool
  riskMode : Bool
deriving Repr, DecidableEq

/-- The four shapes of `build_dashboard_response` results. -/
inductive DashboardData where
  | range (lo hi : Int)
  | pie (entries : List PieEntry)
  | kpi (result : KpiResult)
  | table (rows : List Row)

/-- `build_dashboard_response(widget_type, rows, prompt)`. -/
def build_dashboard_response (widget_type : String) (rows : List Row)
    (prompt : String) : Except Unit DashboardData :=
  let prompt_lower := py_lower prompt
  if widget_type = "filter-range" then
    if rows.isEmpty then .ok (.range 0 100)
    else do
      let values ← int_field_values "value" rows
      pure (.range (list_min values) (list_max values))
  else if widget_type = "pie" then do
    let group_column := pie_group_column rows
    let grouped ← pie_groups group_column [] rows
    pure (.pie (grouped.map (fun kv =>
      { name := kv.1, value := kv.2, filterKey := group_column, filterValue := kv.1 })))
  else if widget_type = "kpi" then do
    let currents ← int_field_values "value" rows
    let prevs ← int_field_values "prev" rows
    let total_current := currents.sum
    let total_prev := prevs.sum
    let change_pct : ℚ :=
      if total_prev ≤ 0 then 0
      else (((total_current : ℚ) - (total_prev : ℚ)) / (total_prev : ℚ)) * 100
    pure (.kpi
      { totalCurrent := total_current, totalPrev := total_prev,
        changePct := change_pct, positive := decide (0 ≤ change_pct),
        riskMode := py_in "risk" prompt_lower })
  else .ok (.table rows)

/-! ## Schema inference and column options -/

/-- Insertion sort on strings (code-point lexicographic order, matching
Python's `<` on `str`). -/
def insert_sorted (s : String) : List String → List String
  | [] => [s]
  | t :: rest => if py_str_le s t then s :: t :: rest else t :: insert_sorted s rest

/-- Python `sorted(list(set))` on strings: the distinct elements in
ascending order (the result is determined by the set's contents, so the
set's iteration order is irrelevant). -/
def sorted_unique (values : List String) : List String :=
  (values.dedup).foldr insert_sorted []

/-- `{str(row.get(column)) for row in rows if row.get(column) is not None
and str(row.get(column)).strip() != ""}` as a list (before
dedup/sort). -/
def present_string_values (rows : List Row) (column : String) : List String :=
  rows.filterMap (fun row =>
    match py_get row column with
    | .vNull => none
    | v => if py_strip (py_str v) == "" then none else some (py_str v))

/-- `get_dashboard_column_options(rows, column)`: `["All"]` followed by
the sorted distinct non-blank string forms of the column's values. -/
def get_dashboard_column_options (rows : List Row) (column : String) : List String :=
  "All" :: sorted_unique (present_string_values rows column)

/-- One column record produced by `infer_dashboard_schema`.  The Python
code adds the `options` / `min` / `max` keys conditionally; absent keys
are modeled as `none`. -/
structure ColumnRecord where
  name : String
  type : String
  filterable : Bool
  options : Option (List String)
  minVal : Option Int
  maxVal : Option Int
deriving Repr, DecidableEq

/-- The first non-`None` value of a column across the rows (the
`sample_value` scan of `infer_dashboard_schema`). -/
def first_sample (rows : List Row) (name : String) : Value :=
  match rows with
  | [] => .vNull
  | row :: rest =>
    match py_get row name with
    | .vNull => first_sample rest name
    | v => v

/-- `infer_dashboard_schema(rows)`: one record per key of the first row
(`{"columns": []}` when there are no rows).  The response wraps this list
as `{"columns": columns}`. -/
def infer_dashboard_schema (rows : List Row) : List ColumnRecord :=
  match rows with
  | [] => []
  | first :: _ =>
    (first.map Prod.fst).map (fun name =>
      let sample := first_sample rows name
      let value_type :=
        match sample with
        | .vBool _ => "boolean"
        | .vInt _ => "number"
        | .vStr _ => "string"
        | _ => "unknown"
      let unique_values :=
        if value_type = "string" || value_type = "boolean" then
          sorted_unique (present_string_values rows name)
        else []
      let numeric_values :=
        if value_type = "number" then
          rows.filterMap (fun row => to_number (py_get row name))
        else []
      let filterable :=
        if value_type = "string" || value_type = "boolean" then
          !unique_values.isEmpty
        else if value_type = "number" then !numeric_values.isEmpty
        else false
      { name := name
        type := value_type
        filterable := filterable
        options :=
          if filterable && (value_type = "string" || value_type = "boolean") then
            some ("All" :: unique_values)
          else none
        minVal :=
          if filterable && value_type = "number" && !numeric_values.isEmpty then
            some (list_min numeric_values)
          else none
        maxVal :=
          if filterable && value_type = "number" && !numeric_values.isEmpty then
            some (list_max numeric_values)
          else none })

/-! ## Dashboard HTTP handlers -/

/-- `GET /dashboard/schema`: `selected_source = source or "global-trade"`
(both a missing parameter and an empty string are falsy), then the schema
of the selected record's rows; the response echoes `selected_source`. -/
def dashboard_schema_handler (source : Option String) :
    String × List ColumnRecord :=
  let selected :=
    match source with
    | none => "global-trade"
    | some s => if s = "" then "global-trade" else s
  (selected, infer_dashboard_schema (get_dashboard_source selected).rows)

/-- The payload of `POST /dashboard/query`. -/
structure DashboardQueryRequest where
  source : String
  widgetType : String
  prompt : String
  filters : Option (List (String × Value))

/-- The response of `POST /dashboard/query`. -/
structure QueryResponse where
  source : String
  widgetType : String
  data : DashboardData

/-- `POST /dashboard/query`: filter the selected source's rows, build the
widget data, and echo the request's `source` and `widgetType`. -/
def query_dashboard_data (payload : DashboardQueryRequest) :
    Except Unit QueryResponse := do
  let source_record := get_dashboard_source payload.source
  let rows ← apply_dashboard_filters source_record.rows (payload.filters.getD [])
  let result ← build_dashboard_response payload.widgetType rows payload.prompt
  pure { source := payload.source, widgetType := payload.widgetType, data := result }

/-- The payload of `POST /dashboard/options`. -/
structure DashboardOptionsRequest where
  source : String
  column : String
  filters : Option (List (String × Value))

/-- The response of `POST /dashboard/options`. -/
structure OptionsResponse where
  source : String
  column : String
  options : List String

/-- `POST /dashboard/options`: drop the filter on the requested column,
filter the selected source's rows with the rest, and list the column's
options; the response echoes the request's `source` and `column`. -/
def get_dashboard_options (payload : DashboardOptionsRequest) :
    Except Unit OptionsResponse := do
  let source_record := get_dashboard_source payload.source
  let scoped_filters := (payload.filters.getD []).filter (fun kv => kv.1 ≠ payload.column)
  let rows ← apply_dashboard_filters source_record.rows scoped_filters
  pure { source := payload.source, column := payload.column,
         options := get_dashboard_column_options rows payload.column }

/-! ## Session store (`SESSIONS`) -/

/-- One record of the in-memory `SESSIONS` dict.  `agent` and `title` are
arbitrary JSON values taken from the request payload; timestamps
(`time.time()` floats) are modeled as rationals. -/
structure Session where
  id : String
  agent : Value
  title : Value
  createdAt : ℚ
  lastUpdated : ℚ

/-- The process-wide `SESSIONS` dict, keyed by session identifier. -/
abbrev SessionStore := List (String × Session)

/-- `GET /sessions`: `list(SESSIONS.values())`; the store is not
modified. -/
def list_sessions (store : SessionStore) : List Session :=
  store.map (fun kv => kv.2)

/-- Python dict assignment `SESSIONS[sid] = session`: replaces in place
when the key exists, appends otherwise. -/
def dict_set (store : SessionStore) (key : String) (session : Session) :
    SessionStore :=
  match store with
  | [] => [(key, session)]
  | (k, s) :: rest =>
    if k = key then (k, session) :: rest else (k, s) :: dict_set rest key session

/-- `POST /sessions`: build the session record and store it under the
generated identifier `sid` (`uuid.uuid4()` is modeled as a parameter).
`time.time()` is called twice, once for each timestamp field; the title
defaults to `f"Session {sid[:8]}"` when the payload's `title` is falsy
(absent, `None`, empty, ...). -/
def create_session (store : SessionStore) (sid : String) (payload : Row)
    (created_time updated_time : ℚ) : SessionStore × Session :=
  let title_value := py_get payload "title"
  let session : Session :=
    { id := sid
      agent := py_get payload "agent"
      title :=
        if py_truthy title_value then title_value
        else .vStr ("Session " ++ (⟨sid.data.take 8⟩ : String))
      createdAt := created_time
      lastUpdated := updated_time }
  (dict_set store sid session, session)

/-- The in-place mutation `SESSIONS[session_id]["lastUpdated"] = now`,
as a per-entry update. -/
def touch_update (session_id : String) (now : ℚ) (kv : String × Session) :
    String × Session :=
  if kv.1 = session_id then (kv.1, { kv.2 with lastUpdated := now }) else kv

/-- `PUT /sessions/{session_id}`: when present, set the record's
`lastUpdated` to the current time and answer `{"ok": true}` (status 200);
otherwise answer `{"ok": false}` with status 404 and leave the store
untouched. -/
def touch_session (store : SessionStore) (session_id : String) (now : ℚ) :
    SessionStore × (Bool × Nat) :=
  if (dict_lookup store session_id).isSome then
    (store.map (touch_update session_id now), (true, 200))
  else (store, (false, 404))

/-- `DELETE /sessions`: `SESSIONS.clear()`. -/
def clear_sessions (_store : SessionStore) : SessionStore := []

/-- The invariant of the session store: stored keys are pairwise distinct
and every record's `id` field equals the key it is stored under. -/
def session_inv (store : SessionStore) : Prop :=
  (store.map Prod.fst).Nodup ∧ ∀ kv ∈ store, kv.2.id = kv.1

/-! ## `/stream`: suggested queries, HITL echo and the event stream -/

/-- One suggested-query card. -/
structure SuggestedQuery where
  id : String
  title : String
  description : String
  prompt : String
  variant : Option String
deriving Repr, DecidableEq

/-- `build_suggested_queries(input_text)`: a "migration"/"sql" specific
list when the lowercased input contains either keyword, else the default
list (both have three items). -/
def build_suggested_queries (input_text : String) : List SuggestedQuery :=
  let text := py_lower input_text
  if py_in "migration" text || py_in "sql" text then
    [{ id := "sq_generate_sql", title := "⚡ Generate Migration",
       description := "Create SQL migration from the latest schema.",
       prompt := "Generate SQL migration script for this schema.",
       variant := some "primary" },
     { id := "sq_edit_schema", title := "🛠 Edit Schema",
       description := "Adjust fields and naming before apply.",
       prompt := "Edit the schema with my latest changes.",
       variant := none },
     { id := "sq_validate_model", title := "🧪 Validate Model",
       description := "Run consistency and type checks.",
       prompt := "Validate this model and list any risks or inconsistencies.",
       variant := none }]
  else
    [{ id := "sq_generate_sql", title := "⚡ Generate Migration",
       description := "Create migration SQL from your latest schema.",
       prompt := "Generate SQL migration script for this schema.",
       variant := some "primary" },
     { id := "sq_edit_schema", title := "🛠 Edit Schema",
       description := "Adjust fields, enums, and naming quickly.",
       prompt := "Edit the schema with my latest changes.",
       variant := none },
     { id := "sq_seed_data", title := "🌱 Create Seed Data",
       description := "Generate realistic sample records for testing.",
       prompt := "Create representative seed data for this schema.",
       variant := none }]

/-- A parsed `hitlActionResult` payload (the pydantic `HITLActionResult`
model). -/
structure HITLActionResultM where
  actionId : String
  messageId : Option String
  sessionId : Option String
  payload : Option Row
  submittedAt : Option ℚ

/-- The suggested-query list attached to a HITL echo, selected by string
match on the action identifier (the code assigns the default list first
and overwrites it for `"submit_form"` and for `"modify"`/`"edit_schema"`;
`str(... or "")` maps an empty id to itself, so the match is on
`actionId` directly). -/
def hitl_suggested_queries (action_id : String) : List SuggestedQuery :=
  if action_id = "submit_form" then
    [{ id := "sq_generate_sql", title := "⚡ Generate Migration",
       description := "Create migration SQL for approved schema values.",
       prompt := "Generate SQL migration script using the approved form values.",
       variant := some "primary" },
     { id := "sq_edit_schema", title := "🛠 Edit Schema",
       description := "Update the model before moving ahead.",
       prompt := "Edit the approved schema with additional changes.",
       variant := none },
     { id := "sq_validate_model", title := "🧪 Validate Model",
       description := "Run consistency and type validation checks.",
       prompt := "Validate this model and list any risks or inconsistencies.",
       variant := none },
     { id := "sq_seed_data", title := "🌱 Create Seed Data",
       description := "Produce realistic sample records for testing.",
       prompt := "Create representative seed data for this approved schema.",
       variant := none }]
  else if action_id = "modify" ∨ action_id = "edit_schema" then
    [{ id := "sq_generate_sql", title := "⚡ Generate Migration",
       description := "Build migration SQL once edits are complete.",
       prompt := "Generate SQL migration for the updated schema.",
       variant := some "primary" },
     { id := "sq_edit_schema", title := "🛠 Edit Schema",
       description := "Continue refining fields and enums.",
       prompt := "Edit core fields, data types, and enums based on feedback.",
       variant := none },
     { id := "sq_compare_versions", title := "🔎 Compare Versions",
       description := "Highlight changes from prior proposal.",
       prompt := "Compare the current schema with the previous version and summarize differences.",
       variant := none },
     { id := "sq_collect_requirements", title := "🧩 Capture Gaps",
       description := "List open questions before final approval.",
       prompt := "List the missing requirements I should confirm before approval.",
       variant := none }]
  else
    [{ id := "sq_generate_sql", title := "⚡ Generate Migration",
       description := "Create migration SQL from the latest schema.",
       prompt := "Generate SQL migration script for this schema.",
       variant := some "primary" },
     { id := "sq_edit_schema", title := "🛠 Edit Schema",
       description := "Adjust fields, enums, and naming before finalizing.",
       prompt := "Edit the schema with my latest changes.",
       variant := none },
     { id := "sq_refine_constraints", title := "✅ Tighten Rules",
       description := "Add nullable, compliance, and naming constraints.",
       prompt := "Refine this schema with stricter constraints and validation rules.",
       variant := none },
     { id := "sq_add_indexes", title := "📈 Suggest Indexes",
       description := "Recommend indexes for read/write performance.",
       prompt := "Suggest indexes and explain expected performance impact.",
       variant := none }]

/-- One option of a HITL action (pydantic `HITLOption`); `style` dicts in
this server are string-valued. -/
structure HITLOptionM where
  id : String
  label : String
  description : Option String
  style : Option (List (String × String))
deriving Repr, DecidableEq

/-- One form field of a HITL action (pydantic `HITLFormField`; never
instantiated by this server, `fields` is always `None`). -/
structure HITLFormFieldM where
  name : String
  label : String
  type : String
  required : Bool
  options : Option (List HITLOptionM)
deriving Repr, DecidableEq

/-- A HITL action (pydantic `HITLAction`, serialized by `model_dump`). -/
structure HITLActionM where
  type : String
  title : String
  message : String
  options : Option (List HITLOptionM)
  fields : Option (List HITLFormFieldM)
  style : Option (List (String × String))
  metadata : Option (List (String × String))
deriving Repr, DecidableEq

/-- The `meta` object of the final `done` event of a plan stream (the
event's other fields are the constants `type="done"`, `content=""`,
`render_type="done"`, `message=""`). -/
structure DoneMeta where
  hitl : HITLActionM
  tableDataString : String
  suggestedQueries : List SuggestedQuery

/-- The NDJSON events emitted on `/stream`, by `render_type`:
`start`, `step`, `text`, the plan-completion `done`, and the HITL-echo
`done` (which carries `message` and a `meta` with the echoed result and
suggested queries). -/
inductive Event where
  | start (total_steps : Nat)
  | step (message : String) (step : Nat)
  | text (message : String) (step : Nat) (step_name : String)
  | done (meta : DoneMeta)
  | hitl_done (message : String) (result : HITLActionResultM)
      (suggestedQueries : List SuggestedQuery)

/-- The three narration chunks of step 1. -/
def plan_chunks : List String :=
  ["I will propose a table schema for your products. ",
   "First I will list columns and types. ",
   "Then I will return the full table payload for rendering."]

/-- `json.dumps(table_rows)` for the hardcoded two-row product table
(lines 789-804 of the server; `json.dumps` renders the dicts in
insertion order with `", "` / `": "` separators). -/
def table_data_string : String :=
  "[\x7b\"id\": \"p1\", \"name\": \"Product A\", \"price\": 9.99, \"currency\": \"USD\", \"available_since\": \"2024-01-10T00:00:00Z\"\x7d, \x7b\"id\": \"p2\", \"name\": \"Product B\", \"price\": 19.99, \"currency\": \"USD\", \"available_since\": \"2024-02-15T00:00:00Z\"\x7d]"

/-- The HITL approval prompt attached to the `done` event. -/
def approval_hitl : HITLActionM where
  type := "binary"
  title := "Review and approve data model plan"
  message := "Provide the final details, then submit the approval."
  options := some
    [{ id := "approve_plan", label := "Approve",
       description := some "Approve and continue.",
       style := some [("variant", "primary")] },
     { id := "edit_schema", label := "Edit Schema",
       description := some "Make changes before approval.",
       style := some [("variant", "secondary")] }]
  fields := none
  style := some [("variant", "card")]
  metadata := some
    [("hint", "Choose Approve to continue, or Edit Schema to revise first.")]

/-- A narration text chunk of step 1. -/
def text_event (chunk : String) : Event := .text chunk 1 "Plan overview"

/-- The final `done` event of a plan stream. -/
def done_event (input_text : String) : Event :=
  .done { hitl := approval_hitl, tableDataString := table_data_string,
          suggestedQueries := build_suggested_queries input_text }

/-- The observable actions of the streaming generator: emitting one
NDJSON line, or polling `await_disconnect(request)` (which returns `True`
either on a real disconnect or when `is_disconnected` raises). -/
inductive StreamAct where
  | emit (e : Event)
  | check

/-- The chunk loop of `event_stream`: before each narration chunk the
generator polls for disconnect (the `d` oracle gives the result of the
`i`-th poll) and returns immediately when the poll is positive.  Returns
the actions of the loop and whether the generator aborted. -/
def chunk_loop_trace (d : Nat → Bool) : Nat → List String → List StreamAct × Bool
  | _, [] => ([], false)
  | i, c :: cs =>
    if d i then ([.check], true)
    else
      let (tr, aborted) := chunk_loop_trace d (i + 1) cs
      (.check :: .emit (text_event c) :: tr, aborted)

/-- The full action trace of `event_stream` for a non-HITL request:
start event, step-1 marker, the chunk loop, and (unless the loop
aborted) the step-2 and step-3 markers and the final `done` event. -/
def event_stream_trace (input_text : String) (d : Nat → Bool) : List StreamAct :=
  let (tr, aborted) := chunk_loop_trace d 0 plan_chunks
  [.emit (.start 3), .emit (.step "Plan overview" 1)] ++ tr ++
    (if aborted then []
     else [.emit (.step "Prepare table payload" 2), .emit (.step "Finalize" 3),
           .emit (done_event input_text)])

/-- The events actually sent to the client: the emissions of a trace. -/
def emitted_events (trace : List StreamAct) : List Event :=
  trace.filterMap (fun a => match a with | .emit e => some e | .check => none)

/-- Whether a trace polls for disconnect between every two consecutive
emissions: the flag records whether an emission has happened since the
last poll. -/
def checked_between_emits (seen_emit : Bool) : List StreamAct → Bool
  | [] => true
  | .check :: rest => checked_between_emits false rest
  | .emit _ :: rest => !seen_emit && checked_between_emits true rest

/-- The HITL-echo event (`hitl_result_stream` yields this single line). -/
def hitl_done_event (result : HITLActionResultM) : Event :=
  .hitl_done "HITL action result received." result
    (hitl_suggested_queries result.actionId)

/-- The events of one `/stream` response, as a function of the parsed
request: a request carrying a `hitlActionResult` short-circuits to the
single HITL-echo event; otherwise the plan stream runs with the client's
disconnect behavior `d`. -/
def stream_events (hitl_result : Option HITLActionResultM) (input_text : String)
    (d : Nat → Bool) : List Event :=
  match hitl_result with
  | some result => [hitl_done_event result]
  | none => emitted_events (event_stream_trace input_text d)

/-! ## General list lemmas -/

theorem filter_always {α : Type} (p : α → Bool) (l : List α)
    (h : ∀ x, p x = true) : l.filter p = l := by
  induction l with
  | nil => rfl
  | cons x xs ih => simp [List.filter, h x, ih]

theorem filter_ext {α : Type} (p q : α → Bool) (l : List α)
    (h : ∀ x, p x = q x) : l.filter p = l.filter q := by
  induction l with
  | nil => rfl
  | cons x xs ih => simp [List.filter, h x, ih]

theorem filter_filter_and {α : Type} (p q : α → Bool) (l : List α) :
    (l.filter p).filter q = l.filter (fun x => p x && q x) := by
  induction l with
  | nil => rfl
  | cons x xs ih =>
    cases hp : p x <;> cases hq : q x <;> simp [List.filter, hp, hq, ih]

/-! ## C4: `apply_dashboard_filters` -/

theorem range_filter_eq_filter (key : String) (lower upper : Value)
    (l u : Int) (hl : to_number lower = some l) (hu : to_number upper = some u)
    (rows : List Row) :
    range_filter key lower upper rows =
      .ok (rows.filter (range_keeps key lower upper)) := by
  induction rows with
  | nil => rfl
  | cons row rest ih =>
    cases hx : to_number (py_get row key) with
    | none =>
      simp only [range_filter, hx, ih, List.filter, range_keeps, hl, hu]
    | some x =>
      have hbc : range_bounds_check lower upper x =
          .ok (decide (l ≤ x) && decide (x ≤ u)) := by
        unfold range_bounds_check
        rw [hl, hu]
        by_cases hlx : l ≤ x <;> simp [hlx]
      simp only [range_filter, hx, hbc, ih, List.filter, range_keeps, hl, hu]
      by_cases hlx : l ≤ x <;> by_cases hxu : x ≤ u <;>
        simp [hlx, hxu, Except.bind]

theorem apply_one_filter_eq_filter (key : String) (value : Value)
    (hb : filter_bounds_ok value = true) (rows : List Row) :
    apply_one_filter rows key value = .ok (rows.filter (claim_keeps key value)) := by
  cases value with
  | vNull =>
    rw [filter_always (claim_keeps key .vNull) rows (fun row => rfl)]
    rfl
  | vBool b =>
    exact congrArg Except.ok (filter_ext _ _ rows
      (fun row => by simp [claim_keeps, is_inactive_filter]))
  | vInt n =>
    exact congrArg Except.ok (filter_ext _ _ rows
      (fun row => by simp [claim_keeps, is_inactive_filter]))
  | vStr s =>
    by_cases hs : (s == "" || s == "All") = true
    · rw [filter_always (claim_keeps key (.vStr s)) rows
        (fun row => by simp [claim_keeps, is_inactive_filter, hs])]
      simp [apply_one_filter, is_inactive_filter, hs]
    · simp only [Bool.not_eq_true] at hs
      rw [show apply_one_filter rows key (.vStr s) = .ok (eq_filter key (.vStr s) rows) by
        simp [apply_one_filter, is_inactive_filter, hs]]
      exact congrArg Except.ok (filter_ext _ _ rows
        (fun row => by simp [claim_keeps, is_inactive_filter, hs]))
  | vList items =>
    match items with
    | [] =>
      exact congrArg Except.ok (filter_ext _ _ rows
        (fun row => by simp [claim_keeps, is_inactive_filter]))
    | [a] =>
      exact congrArg Except.ok (filter_ext _ _ rows
        (fun row => by simp [claim_keeps, is_inactive_filter]))
    | [lower, upper] =>
      simp only [filter_bounds_ok, Bool.and_eq_true, Option.isSome_iff_exists] at hb
      obtain ⟨⟨l, hl⟩, ⟨u, hu⟩⟩ := hb
      rw [show apply_one_filter rows key (.vList [lower, upper]) =
          range_filter key lower upper rows from rfl,
        range_filter_eq_filter key lower upper l u hl hu rows]
      exact congrArg Except.ok (filter_ext _ _ rows
        (fun row => by simp [claim_keeps, is_inactive_filter]))
    | a :: b :: c :: rest =>
      exact congrArg Except.ok (filter_ext _ _ rows
        (fun row => by simp [claim_keeps, is_inactive_filter]))
  | vDict entries =>
    by_cases hmm : ((dict_lookup entries "min").isSome &&
        (dict_lookup entries "max").isSome) = true
    · simp only [filter_bounds_ok, hmm, if_true, Bool.and_eq_true,
        Option.isSome_iff_exists] at hb
      obtain ⟨⟨l, hl⟩, ⟨u, hu⟩⟩ := hb
      rw [show apply_one_filter rows key (.vDict entries) =
          range_filter key ((dict_lookup entries "min").getD .vNull)
            ((dict_lookup entries "max").getD .vNull) rows by
          simp [apply_one_filter, is_inactive_filter, hmm],
        range_filter_eq_filter key _ _ l u hl hu rows]
      exact congrArg Except.ok (filter_ext _ _ rows
        (fun row => by simp [claim_keeps, is_inactive_filter, hmm]))
    · simp only [Bool.not_eq_true] at hmm
      rw [show apply_one_filter rows key (.vDict entries) =
          .ok (eq_filter key (.vDict entries) rows) by
        simp [apply_one_filter, is_inactive_filter, hmm]]
      exact congrArg Except.ok (filter_ext _ _ rows
        (fun row => by simp [claim_keeps, is_inactive_filter, hmm]))

theorem apply_filters_eq_filter (filters : List (String × Value))
    (hok : filters_ok filters = true) (rows : List Row) :
    apply_dashboard_filters rows filters =
      .ok (rows.filter (fun row => filters.all (fun kv => claim_keeps kv.1 kv.2 row))) := by
  induction filters generalizing rows with
  | nil =>
    simp only [List.all_nil]
    exact (congrArg Except.ok (filter_always (fun _ => true) rows (fun _ => rfl))).symm
  | cons kv rest ih =>
    obtain ⟨key, value⟩ := kv
    simp only [filters_ok, List.all_cons, Bool.and_eq_true] at hok
    rw [apply_dashboard_filters, apply_one_filter_eq_filter key value hok.1 rows]
    show apply_dashboard_filters (rows.filter (claim_keeps key value)) rest = _
    rw [ih hok.2 (rows.filter (claim_keeps key value)), filter_filter_and]
    simp only [List.all_cons]

/-- C4 (counterexample): as universally quantified over "every filters
map" the claim is false: a range filter whose bounds do not convert to
numbers makes `float(lower)` raise as soon as a row with a numeric value
at the key is reached (here `filters = {"value": [null, null]}` over a
row with `"value": 5` raises `TypeError`, a 500 response, instead of
returning the filtered rows the claim promises). -/
theorem claim_C4_counterexample :
    apply_dashboard_filters [[("value", Value.vInt 5)]]
      [("value", Value.vList [Value.vNull, Value.vNull])] = Except.error () := rfl

/-- C4 (amended): for every row list and every filters map whose
range-shaped entries (two-element lists, and dicts with both "min" and
"max") have bounds that convert to numbers, `apply_dashboard_filters`
returns exactly the rows, in their original order, that satisfy every
active filter: an entry whose value is `None`, `""` or `"All"` is
inactive; a range-shaped entry keeps a row iff the row's value at that
key is numeric and lies within the closed interval of the bounds; every
other entry keeps a row iff the string form of the row's value equals
the string form of the filter value (the predicate `claim_keeps` spells
this out following the claim's words). -/
theorem claim_C4_filtering (filters : List (String × Value))
    (hok : filters_ok filters = true) (rows : List Row) :
    apply_dashboard_filters rows filters =
      .ok (rows.filter (fun row => filters.all (fun kv => claim_keeps kv.1 kv.2 row))) :=
  apply_filters_eq_filter filters hok rows

/-- C4 (witness): an equality filter on `industries` combined with a
numeric range filter on `value` keeps exactly the first two rows of the
global-trade table. -/
theorem claim_C4_witness :
    filters_ok [("industries", Value.vStr "Electronics"),
        ("value", Value.vList [Value.vInt 4000, Value.vInt 4500])] = true ∧
    apply_dashboard_filters global_trade.rows
        [("industries", Value.vStr "Electronics"),
         ("value", Value.vList [Value.vInt 4000, Value.vInt 4500])] =
      .ok (global_trade.rows.take 2) :=
  ⟨rfl,
   (claim_C4_filtering
      [("industries", Value.vStr "Electronics"),
       ("value", Value.vList [Value.vInt 4000, Value.vInt 4500])] rfl
      global_trade.rows).trans rfl⟩

/-! ## C5: KPI widget -/

theorem int_field_values_eq_map (key : String) (rows : List Row)
    (h : rows_values_numeric key rows = true) :
    int_field_values key rows = .ok (rows.map (int_field_value key)) := by
  induction rows with
  | nil => rfl
  | cons row rest ih =>
    simp only [rows_values_numeric, List.all_cons, Bool.and_eq_true] at h
    obtain ⟨n, hn⟩ := Option.isSome_iff_exists.mp h.1
    simp only [int_field_values, hn, ih h.2, List.map, int_field_value, hn,
      Option.getD_some, Except.bind]
    rfl

/-- C5: for every filtered row list (every row list the server can
produce by filtering its hardcoded tables satisfies the two numeric
hypotheses), the KPI widget sums each row's integer `value` (0 when
absent) into `totalCurrent` and each row's integer `prev` into
`totalPrev`; the percent change is `((cur - prev) / prev) * 100` exactly
when `totalPrev > 0` and exactly `0` when `totalPrev <= 0`, so the
division is never performed with a non-positive denominator; and the
`positive` flag is true iff the percent change is `>= 0`. -/
theorem claim_C5_kpi (rows : List Row) (prompt : String)
    (hv : rows_values_numeric "value" rows = true)
    (hp : rows_values_numeric "prev" rows = true) :
    ∃ k : KpiResult,
      build_dashboard_response "kpi" rows prompt = .ok (.kpi k) ∧
      k.totalCurrent = (rows.map (int_field_value "value")).sum ∧
      k.totalPrev = (rows.map (int_field_value "prev")).sum ∧
      (0 < k.totalPrev →
        k.changePct = (((k.totalCurrent : ℚ) - (k.totalPrev : ℚ)) / (k.totalPrev : ℚ)) * 100) ∧
      (k.totalPrev ≤ 0 → k.changePct = 0) ∧
      (k.positive = true ↔ 0 ≤ k.changePct) := by
  refine ⟨{ totalCurrent := (rows.map (int_field_value "value")).sum,
            totalPrev := (rows.map (int_field_value "prev")).sum,
            changePct :=
              if (rows.map (int_field_value "prev")).sum ≤ 0 then 0
              else ((((rows.map (int_field_value "value")).sum : ℚ) -
                  ((rows.map (int_field_value "prev")).sum : ℚ)) /
                  ((rows.map (int_field_value "prev")).sum : ℚ)) * 100,
            positive :=
              decide (0 ≤ if (rows.map (int_field_value "prev")).sum ≤ 0 then (0 : ℚ)
                else ((((rows.map (int_field_value "value")).sum : ℚ) -
                    ((rows.map (int_field_value "prev")).sum : ℚ)) /
                    ((rows.map (int_field_value "prev")).sum : ℚ)) * 100),
            riskMode := py_in "risk" (py_lower prompt) }, ?_, rfl, rfl, ?_, ?_, ?_⟩
  · rw [build_dashboard_response, if_neg (by decide), if_neg (by decide),
      if_pos rfl, int_field_values_eq_map "value" rows hv,
      int_field_values_eq_map "prev" rows hp]
    rfl
  · intro hpos
    dsimp only at hpos ⊢
    have hne : ¬ ((rows.map (int_field_value "prev")).sum ≤ 0) := by omega
    simp only [hne, if_false]
  · intro hle
    dsimp only at hle ⊢
    simp only [hle, if_true]
  · dsimp only
    simp only [decide_eq_true_eq]

/-- C5 (witness): the KPI conclusions instantiated at the global-trade
table. -/
theorem claim_C5_kpi_witness :
    rows_values_numeric "value" global_trade.rows = true ∧
    rows_values_numeric "prev" global_trade.rows = true ∧
    ∃ k : KpiResult,
      build_dashboard_response "kpi" global_trade.rows "" = .ok (.kpi k) ∧
      k.totalCurrent = (global_trade.rows.map (int_field_value "value")).sum ∧
      k.totalPrev = (global_trade.rows.map (int_field_value "prev")).sum ∧
      (0 < k.totalPrev →
        k.changePct = (((k.totalCurrent : ℚ) - (k.totalPrev : ℚ)) / (k.totalPrev : ℚ)) * 100) ∧
      (k.totalPrev ≤ 0 → k.changePct = 0) ∧
      (k.positive = true ↔ 0 ≤ k.changePct) :=
  ⟨rfl, rfl, claim_C5_kpi global_trade.rows "" rfl rfl⟩

/-! ## C7: filter-range widget -/

theorem foldl_min_mem (xs : List Int) : ∀ x : Int, xs.foldl min x ∈ x :: xs := by
  induction xs with
  | nil => intro x; simp
  | cons y ys ih =>
    intro x
    have h := ih (min x y)
    rcases List.mem_cons.mp h with h1 | h2
    · rcases min_choice x y with hx | hy
      · rw [List.foldl_cons, h1, hx]; exact List.mem_cons_self _ _
      · rw [List.foldl_cons, h1, hy]
        exact List.mem_cons_of_mem _ (List.mem_cons_self _ _)
    · exact List.mem_cons_of_mem _ (List.mem_cons_of_mem _ h2)

theorem foldl_min_le (xs : List Int) : ∀ x : Int, ∀ v ∈ x :: xs, xs.foldl min x ≤ v := by
  induction xs with
  | nil =>
    intro x v hv
    rw [List.mem_singleton.mp hv]
    exact le_refl _
  | cons y ys ih =>
    intro x v hv
    rcases List.mem_cons.mp hv with h1 | hv'
    · calc (y :: ys).foldl min x ≤ min x y :=
            ih (min x y) (min x y) (List.mem_cons_self _ _)
        _ ≤ v := by rw [h1]; exact min_le_left _ _
    · rcases List.mem_cons.mp hv' with h2 | h3
      · calc (y :: ys).foldl min x ≤ min x y :=
              ih (min x y) (min x y) (List.mem_cons_self _ _)
          _ ≤ v := by rw [h2]; exact min_le_right _ _
      · exact ih (min x y) v (List.mem_cons_of_mem _ h3)

theorem foldl_max_mem (xs : List Int) : ∀ x : Int, xs.foldl max x ∈ x :: xs := by
  induction xs with
  | nil => intro x; simp
  | cons y ys ih =>
    intro x
    have h := ih (max x y)
    rcases List.mem_cons.mp h with h1 | h2
    · rcases max_choice x y with hx | hy
      · rw [List.foldl_cons, h1, hx]; exact List.mem_cons_self _ _
      · rw [List.foldl_cons, h1, hy]
        exact List.mem_cons_of_mem _ (List.mem_cons_self _ _)
    · exact List.mem_cons_of_mem _ (List.mem_cons_of_mem _ h2)

theorem foldl_max_ge (xs : List Int) : ∀ x : Int, ∀ v ∈ x :: xs, v ≤ xs.foldl max x := by
  induction xs with
  | nil =>
    intro x v hv
    rw [List.mem_singleton.mp hv]
    exact le_refl _
  | cons y ys ih =>
    intro x v hv
    rcases List.mem_cons.mp hv with h1 | hv'
    · calc v ≤ max x y := by rw [h1]; exact le_max_left _ _
        _ ≤ (y :: ys).foldl max x := ih (max x y) (max x y) (List.mem_cons_self _ _)
    · rcases List.mem_cons.mp hv' with h2 | h3
      · calc v ≤ max x y := by rw [h2]; exact le_max_right _ _
          _ ≤ (y :: ys).foldl max x := ih (max x y) (max x y) (List.mem_cons_self _ _)
      · exact ih (max x y) v (List.mem_cons_of_mem _ h3)

/-- C7: the filter-range widget returns `[0, 100]` on an empty filtered
row list, and otherwise the pair `[min, max]` of the per-row integer
`value` fields (0 when absent): the returned bounds belong to the value
list and bound every element of it. -/
theorem claim_C7_filter_range (rows : List Row) (prompt : String) :
    (rows = [] → build_dashboard_response "filter-range" rows prompt = .ok (.range 0 100)) ∧
    (rows ≠ [] → rows_values_numeric "value" rows = true →
      ∃ lo hi, build_dashboard_response "filter-range" rows prompt = .ok (.range lo hi) ∧
        lo ∈ rows.map (int_field_value "value") ∧
        (∀ v ∈ rows.map (int_field_value "value"), lo ≤ v) ∧
        hi ∈ rows.map (int_field_value "value") ∧
        (∀ v ∈ rows.map (int_field_value "value"), v ≤ hi)) := by
  constructor
  · intro he
    subst he
    rfl
  · intro hne hnum
    refine ⟨list_min (rows.map (int_field_value "value")),
            list_max (rows.map (int_field_value "value")), ?_, ?_⟩
    · rw [build_dashboard_response, if_pos rfl]
      rw [if_neg (by simp [List.isEmpty_iff, hne]),
        int_field_values_eq_map "value" rows hnum]
      rfl
    · match hrows : rows, hne with
      | row :: rest, _ =>
        simp only [List.map_cons, list_min, list_max]
        exact ⟨foldl_min_mem _ _, foldl_min_le _ _, foldl_max_mem _ _, foldl_max_ge _ _⟩

/-- C7 (witness): both branches instantiated — the empty row list yields
`[0, 100]`, and the global-trade table yields its actual value bounds. -/
theorem claim_C7_filter_range_witness :
    build_dashboard_response "filter-range" [] "" = .ok (.range 0 100) ∧
    build_dashboard_response "filter-range" global_trade.rows "" = .ok (.range 4100 5680) := by
  have hne : global_trade.rows ≠ [] := by
    intro h
    have h0 : global_trade.rows.length = 0 := by rw [h]; rfl
    exact absurd h0 (by decide)
  refine ⟨(claim_C7_filter_range [] "").1 rfl, ?_⟩
  obtain ⟨lo, hi, heq, hlo_mem, hlo_le, hhi_mem, hhi_ge⟩ :=
    (claim_C7_filter_range global_trade.rows "").2 hne rfl
  have hmap : global_trade.rows.map (int_field_value "value") =
      [4100, 4300, 4550, 4700, 5200, 5450, 5680] := rfl
  rw [hmap] at hlo_mem hhi_mem
  have h1 : lo ≤ 4100 := hlo_le 4100 (by rw [hmap]; simp)
  have h2 : 5680 ≤ hi := hhi_ge 5680 (by rw [hmap]; simp)
  simp only [List.mem_cons, List.not_mem_nil, or_false] at hlo_mem hhi_mem
  have hlo : lo = 4100 := by rcases hlo_mem with h | h | h | h | h | h | h <;> omega
  have hhi : hi = 5680 := by rcases hhi_mem with h | h | h | h | h | h | h <;> omega
  rw [hlo, hhi] at heq
  exact heq

/-! ## C6: pie widget -/

theorem dict_lookup_eq_some_of_mem_nodup {α : Type} (l : List (String × α))
    (h : (l.map Prod.fst).Nodup) (k : String) (v : α) (hm : (k, v) ∈ l) :
    dict_lookup l k = some v := by
  induction l with
  | nil => cases hm
  | cons p rest ih =>
    obtain ⟨k', v'⟩ := p
    simp only [List.map_cons, List.nodup_cons] at h
    rcases List.mem_cons.mp hm with he | hm'
    · cases he
      simp [dict_lookup]
    · have hk : k' ≠ k := by
        intro hkk
        subst hkk
        exact h.1 (List.mem_map_of_mem Prod.fst hm')
      simp [dict_lookup, hk, ih h.2 hm']

theorem mem_of_dict_lookup_eq_some {α : Type} (l : List (String × α))
    (k : String) (v : α) (h : dict_lookup l k = some v) : (k, v) ∈ l := by
  induction l with
  | nil => cases h
  | cons p rest ih =>
    obtain ⟨k', v'⟩ := p
    by_cases hk : k' = k
    · subst hk
      have h2 : v' = v := by simpa [dict_lookup] using h
      subst h2
      exact List.mem_cons_self _ _
    · simp only [dict_lookup, if_neg hk] at h
      exact List.mem_cons_of_mem _ (ih h)

theorem add_group_lookup_same (acc : List (String × Int)) (k : String) (n : Int) :
    dict_lookup (add_group acc k n) k = some ((dict_lookup acc k).getD 0 + n) := by
  induction acc with
  | nil => simp [add_group, dict_lookup]
  | cons p rest ih =>
    obtain ⟨k', m⟩ := p
    by_cases hk : k' = k
    · subst hk
      simp [add_group, dict_lookup]
    · simp [add_group, dict_lookup, hk, ih]

theorem add_group_lookup_other (acc : List (String × Int)) (k : String) (n : Int)
    (k' : String) (h : k ≠ k') :
    dict_lookup (add_group acc k n) k' = dict_lookup acc k' := by
  induction acc with
  | nil => simp [add_group, dict_lookup, h]
  | cons p rest ih =>
    obtain ⟨k'', m⟩ := p
    by_cases hk : k'' = k
    · subst hk
      simp [add_group, dict_lookup, h]
    · by_cases hk' : k'' = k'
      · subst hk'
        simp [add_group, dict_lookup, hk]
      · simp [add_group, dict_lookup, hk, hk', ih]

theorem add_group_keys (acc : List (String × Int)) (k : String) (n : Int) :
    (add_group acc k n).map Prod.fst =
      if k ∈ acc.map Prod.fst then acc.map Prod.fst else acc.map Prod.fst ++ [k] := by
  induction acc with
  | nil => simp [add_group]
  | cons p rest ih =>
    obtain ⟨k', m⟩ := p
    by_cases hk : k' = k
    · subst hk
      simp [add_group]
    · have hk' : ¬ (k = k') := fun hh => hk hh.symm
      by_cases hmem : k ∈ rest.map Prod.fst <;>
        simp [add_group, hk, hk', hmem, ih, List.mem_cons]

theorem add_group_nodup (acc : List (String × Int)) (k : String) (n : Int)
    (h : (acc.map Prod.fst).Nodup) : ((add_group acc k n).map Prod.fst).Nodup := by
  rw [add_group_keys]
  by_cases hmem : k ∈ acc.map Prod.fst
  · simpa [hmem] using h
  · rw [if_neg hmem]
    refine List.Nodup.append h (List.nodup_singleton k) ?_
    intro a ha hak
    rw [List.mem_singleton.mp hak] at ha
    exact hmem ha

theorem group_sum_cons (gc k : String) (row : Row) (rest : List Row) :
    group_sum gc k (row :: rest) =
      if pie_group_value gc row = k then
        int_field_value "value" row + group_sum gc k rest
      else group_sum gc k rest := by
  by_cases h : pie_group_value gc row = k <;>
    simp [group_sum, List.filter_cons, h]

theorem group_sum_zero (gc k : String) (rows : List Row)
    (h : k ∉ rows.map (pie_group_value gc)) : group_sum gc k rows = 0 := by
  induction rows with
  | nil => rfl
  | cons row rest ih =>
    simp only [List.map_cons, List.mem_cons, not_or] at h
    rw [group_sum_cons, if_neg (fun hh => h.1 hh.symm)]
    exact ih h.2

theorem pie_groups_lookup (gc : String) :
    ∀ rows : List Row, rows_values_numeric "value" rows = true →
    ∀ acc : List (String × Int), ∃ g, pie_groups gc acc rows = .ok g ∧
      ∀ k, dict_lookup g k =
        if k ∈ rows.map (pie_group_value gc) then
          some ((dict_lookup acc k).getD 0 + group_sum gc k rows)
        else dict_lookup acc k := by
  intro rows
  induction rows with
  | nil =>
    intro _ acc
    exact ⟨acc, rfl, fun k => by simp⟩
  | cons row rest ih =>
    intro h acc
    simp only [rows_values_numeric, List.all_cons, Bool.and_eq_true] at h
    obtain ⟨n, hn⟩ := Option.isSome_iff_exists.mp h.1
    have hifv : int_field_value "value" row = n := by
      simp [int_field_value, hn]
    obtain ⟨g, hg, hlook⟩ := ih h.2 (add_group acc (pie_group_value gc row) n)
    refine ⟨g, by simp only [pie_groups, hn, hg], ?_⟩
    intro k
    rw [hlook k]
    by_cases hkgv : k = pie_group_value gc row
    · rw [hkgv]
      rw [add_group_lookup_same acc (pie_group_value gc row) n]
      have hS : group_sum gc (pie_group_value gc row) (row :: rest) =
          n + group_sum gc (pie_group_value gc row) rest := by
        rw [group_sum_cons, if_pos rfl, hifv]
      have hhead : pie_group_value gc row ∈ (row :: rest).map (pie_group_value gc) := by
        simp
      by_cases hmem : pie_group_value gc row ∈ rest.map (pie_group_value gc)
      · rw [if_pos hmem, if_pos hhead, hS]
        simp [add_assoc]
      · rw [if_neg hmem, if_pos hhead, hS, group_sum_zero gc _ rest hmem]
        simp
    · have hgv : pie_group_value gc row ≠ k := fun hh => hkgv hh.symm
      rw [add_group_lookup_other acc _ n k hgv]
      have hS : group_sum gc k (row :: rest) = group_sum gc k rest := by
        rw [group_sum_cons, if_neg hgv]
      have hmem_iff : (k ∈ (row :: rest).map (pie_group_value gc)) ↔
          (k ∈ rest.map (pie_group_value gc)) := by
        simp [List.mem_cons, hkgv]
      by_cases hmem : k ∈ rest.map (pie_group_value gc)
      · rw [if_pos hmem, if_pos (hmem_iff.mpr hmem), hS]
      · rw [if_neg hmem, if_neg (fun hh => hmem (hmem_iff.mp hh))]

theorem pie_groups_nodup (gc : String) :
    ∀ (rows : List Row) (acc g : List (String × Int)),
      pie_groups gc acc rows = .ok g → (acc.map Prod.fst).Nodup →
      (g.map Prod.fst).Nodup := by
  intro rows
  induction rows with
  | nil =>
    intro acc g hg h
    cases hg
    exact h
  | cons row rest ih =>
    intro acc g hg h
    cases hn : to_number (py_get_default row "value" (.vInt 0)) with
    | none => simp [pie_groups, hn] at hg
    | some n =>
      simp only [pie_groups, hn] at hg
      exact ih _ _ hg (add_group_nodup acc _ n h)

/-- C6: on a non-empty (numeric-valued) filtered row list, the pie
widget groups rows by the first string-valued column of the first row
whose key is not "name" (falling back to "industries" — this is
`pie_group_column`), and returns one entry per distinct group value
(rows with a missing or falsy group value are grouped under "Unknown",
which is part of `pie_group_value`), each entry's value being the sum of
the integer `value` field over the rows of its group. -/
theorem claim_C6_pie (rows : List Row) (prompt : String) (_hne : rows ≠ [])
    (h : rows_values_numeric "value" rows = true) :
    ∃ entries, build_dashboard_response "pie" rows prompt = .ok (.pie entries) ∧
      (entries.map PieEntry.name).Nodup ∧
      (∀ e ∈ entries,
        e.name ∈ rows.map (pie_group_value (pie_group_column rows)) ∧
        e.value = group_sum (pie_group_column rows) e.name rows ∧
        e.filterKey = pie_group_column rows ∧
        e.filterValue = e.name) ∧
      (∀ k ∈ rows.map (pie_group_value (pie_group_column rows)),
        ∃ e ∈ entries, e.name = k) := by
  obtain ⟨g, hg, hlook⟩ := pie_groups_lookup (pie_group_column rows) rows h []
  have hnodup : (g.map Prod.fst).Nodup :=
    pie_groups_nodup (pie_group_column rows) rows [] g hg (by simp)
  refine ⟨g.map (fun kv =>
    { name := kv.1, value := kv.2, filterKey := pie_group_column rows,
      filterValue := kv.1 }), ?_, ?_, ?_, ?_⟩
  · rw [build_dashboard_response, if_neg (by decide), if_pos rfl]
    show (pie_groups (pie_group_column rows) [] rows).bind _ = _
    rw [hg]
    rfl
  · have hmm : (g.map (fun kv : String × Int =>
        ({ name := kv.1, value := kv.2, filterKey := pie_group_column rows,
           filterValue := kv.1 } : PieEntry))).map PieEntry.name = g.map Prod.fst := by
      simp [List.map_map, Function.comp]
    rw [hmm]
    exact hnodup
  · intro e he
    obtain ⟨kv, hkv_mem, hkv_eq⟩ := List.mem_map.mp he
    obtain ⟨k, v⟩ := kv
    subst hkv_eq
    have hlk : dict_lookup g k = some v :=
      dict_lookup_eq_some_of_mem_nodup g hnodup k v hkv_mem
    have hthis := hlook k
    rw [hlk] at hthis
    by_cases hmem : k ∈ rows.map (pie_group_value (pie_group_column rows))
    · rw [if_pos hmem] at hthis
      have hv : v = group_sum (pie_group_column rows) k rows := by
        have := Option.some.inj hthis
        simpa [dict_lookup] using this
      exact ⟨hmem, hv, rfl, rfl⟩
    · rw [if_neg hmem] at hthis
      cases hthis
  · intro k hk
    have hthis := hlook k
    rw [if_pos hk] at hthis
    have hmem := mem_of_dict_lookup_eq_some g k _ hthis
    refine ⟨{ name := k, value := (dict_lookup [] k).getD 0 + group_sum (pie_group_column rows) k rows,
              filterKey := pie_group_column rows, filterValue := k }, ?_, rfl⟩
    exact List.mem_map.mpr ⟨(k, (dict_lookup [] k).getD 0 + group_sum (pie_group_column rows) k rows), hmem, rfl⟩

/-- C6 (witness): the pie conclusions instantiated at the global-trade
table (grouped by `imports_exports`, its first non-`name` string
column). -/
theorem claim_C6_pie_witness :
    global_trade.rows ≠ [] ∧
    rows_values_numeric "value" global_trade.rows = true ∧
    pie_group_column global_trade.rows = "imports_exports" ∧
    ∃ entries, build_dashboard_response "pie" global_trade.rows "" = .ok (.pie entries) ∧
      (entries.map PieEntry.name).Nodup ∧
      (∀ e ∈ entries,
        e.name ∈ global_trade.rows.map (pie_group_value (pie_group_column global_trade.rows)) ∧
        e.value = group_sum (pie_group_column global_trade.rows) e.name global_trade.rows ∧
        e.filterKey = pie_group_column global_trade.rows ∧
        e.filterValue = e.name) ∧
      (∀ k ∈ global_trade.rows.map (pie_group_value (pie_group_column global_trade.rows)),
        ∃ e ∈ entries, e.name = k) := by
  have hne : global_trade.rows ≠ [] := by
    intro hh
    have h0 : global_trade.rows.length = 0 := by rw [hh]; rfl
    exact absurd h0 (by decide)
  exact ⟨hne, rfl, rfl, claim_C6_pie global_trade.rows "" hne rfl⟩

/-! ## C8 and C9: session store -/

theorem dict_lookup_cons {α : Type} (k' : String) (v : α) (rest : List (String × α))
    (key : String) :
    dict_lookup ((k', v) :: rest) key = if k' = key then some v else dict_lookup rest key :=
  rfl

theorem touch_update_self (sid : String) (now : ℚ) (k' : String) (s : Session)
    (h : k' = sid) :
    touch_update sid now (k', s) = (k', { s with lastUpdated := now }) := by
  simp [touch_update, h]

theorem touch_update_other (sid : String) (now : ℚ) (k' : String) (s : Session)
    (h : ¬ k' = sid) : touch_update sid now (k', s) = (k', s) := by
  simp [touch_update, h]

theorem touch_update_fst (sid : String) (now : ℚ) (kv : String × Session) :
    (touch_update sid now kv).1 = kv.1 := by
  by_cases h : kv.1 = sid <;> simp [touch_update, h]

theorem touch_map_lookup (store : SessionStore) (sid : String) (now : ℚ) (k : String) :
    dict_lookup (store.map (touch_update sid now)) k =
      if k = sid then
        (dict_lookup store k).map (fun s => { s with lastUpdated := now })
      else dict_lookup store k := by
  induction store with
  | nil => by_cases hk : k = sid <;> simp [dict_lookup, hk]
  | cons p rest ih =>
    obtain ⟨k', s⟩ := p
    simp only [List.map_cons]
    by_cases h1 : k' = sid
    · rw [touch_update_self sid now k' s h1]
      by_cases h2 : k' = k
      · have hk : k = sid := by rw [← h2, h1]
        rw [dict_lookup_cons, if_pos h2, dict_lookup_cons, if_pos h2, if_pos hk]
        rfl
      · have hk : ¬ k = sid := fun hh => h2 (h1.trans hh.symm)
        rw [dict_lookup_cons, if_neg h2, ih, if_neg hk, if_neg hk,
          dict_lookup_cons, if_neg h2]
    · rw [touch_update_other sid now k' s h1]
      by_cases h2 : k' = k
      · have hk : ¬ k = sid := fun hh => h1 (h2.trans hh)
        rw [dict_lookup_cons, if_pos h2, if_neg hk, dict_lookup_cons, if_pos h2]
      · rw [dict_lookup_cons, if_neg h2, ih]
        by_cases hk : k = sid
        · rw [if_pos hk, if_pos hk, dict_lookup_cons, if_neg h2]
        · rw [if_neg hk, if_neg hk, dict_lookup_cons, if_neg h2]

theorem map_preserving_fst_keys (store : SessionStore)
    (f : String × Session → String × Session)
    (hf : ∀ kv, (f kv).1 = kv.1) : (store.map f).map Prod.fst = store.map Prod.fst := by
  induction store with
  | nil => rfl
  | cons p rest ih => simp [hf p, ih]

/-- C8: touching a stored session updates only that session's
`lastUpdated` field — the record keeps its `id`, `agent`, `title` and
`createdAt`, every other key maps to an unchanged record, and the key
set is unchanged — and answers ok/200; touching an absent identifier
answers 404 and leaves the whole store untouched. -/
theorem claim_C8_touch_session (store : SessionStore) (sid : String) (now : ℚ) :
    ((dict_lookup store sid).isSome = true →
      (touch_session store sid now).2 = (true, 200) ∧
      (∃ s s', dict_lookup store sid = some s ∧
        dict_lookup (touch_session store sid now).1 sid = some s' ∧
        s'.id = s.id ∧ s'.agent = s.agent ∧ s'.title = s.title ∧
        s'.createdAt = s.createdAt ∧ s'.lastUpdated = now) ∧
      (∀ k, k ≠ sid → dict_lookup (touch_session store sid now).1 k = dict_lookup store k) ∧
      (touch_session store sid now).1.map Prod.fst = store.map Prod.fst) ∧
    (dict_lookup store sid = none →
      touch_session store sid now = (store, (false, 404))) := by
  constructor
  · intro hsome
    have htouch : touch_session store sid now =
        (store.map (touch_update sid now), (true, 200)) := by
      rw [touch_session, if_pos hsome]
    obtain ⟨s, hs⟩ := Option.isSome_iff_exists.mp hsome
    refine ⟨by rw [htouch], ⟨s, { s with lastUpdated := now }, hs, ?_, rfl, rfl, rfl, rfl, rfl⟩,
      ?_, ?_⟩
    · rw [htouch]
      show dict_lookup (store.map (touch_update sid now)) sid = _
      rw [touch_map_lookup store sid now sid, if_pos rfl, hs]
      rfl
    · intro k hk
      rw [htouch]
      show dict_lookup (store.map (touch_update sid now)) k = _
      rw [touch_map_lookup store sid now k, if_neg hk]
    · rw [htouch]
      exact map_preserving_fst_keys store (touch_update sid now)
        (touch_update_fst sid now)
  · intro hnone
    rw [touch_session, if_neg (by simp [hnone])]

/-- C8 (witness): a two-session store — touching "a" answers ok, leaves
"b" untouched, and touching an absent key returns 404 with the store
unchanged. -/
theorem claim_C8_touch_session_witness :
    (touch_session [("a", ⟨"a", .vNull, .vStr "t1", 1, 1⟩),
        ("b", ⟨"b", .vNull, .vStr "t2", 2, 2⟩)] "a" 99).2 = (true, 200) ∧
    dict_lookup (touch_session [("a", ⟨"a", .vNull, .vStr "t1", 1, 1⟩),
        ("b", ⟨"b", .vNull, .vStr "t2", 2, 2⟩)] "a" 99).1 "b" =
      some ⟨"b", .vNull, .vStr "t2", 2, 2⟩ ∧
    touch_session [("a", ⟨"a", .vNull, .vStr "t1", 1, 1⟩),
        ("b", ⟨"b", .vNull, .vStr "t2", 2, 2⟩)] "zz" 99 =
      ([("a", ⟨"a", .vNull, .vStr "t1", 1, 1⟩),
        ("b", ⟨"b", .vNull, .vStr "t2", 2, 2⟩)], (false, 404)) := by
  refine ⟨((claim_C8_touch_session [("a", ⟨"a", .vNull, .vStr "t1", 1, 1⟩),
      ("b", ⟨"b", .vNull, .vStr "t2", 2, 2⟩)] "a" 99).1 rfl).1,
    (((claim_C8_touch_session [("a", ⟨"a", .vNull, .vStr "t1", 1, 1⟩),
      ("b", ⟨"b", .vNull, .vStr "t2", 2, 2⟩)] "a" 99).1 rfl).2.2.1 "b" (by decide)).trans rfl,
    (claim_C8_touch_session [("a", ⟨"a", .vNull, .vStr "t1", 1, 1⟩),
      ("b", ⟨"b", .vNull, .vStr "t2", 2, 2⟩)] "zz" 99).2 rfl⟩

theorem dict_set_fresh (store : SessionStore) (sid : String) (s : Session)
    (h : sid ∉ store.map Prod.fst) : dict_set store sid s = store ++ [(sid, s)] := by
  induction store with
  | nil => rfl
  | cons p rest ih =>
    obtain ⟨k, v⟩ := p
    simp only [List.map_cons, List.mem_cons, not_or] at h
    rw [dict_set, if_neg (fun hh => h.1 hh.symm), ih h.2]
    rfl

/-- C9: the session-store invariant — keys are pairwise distinct and
every stored record's `id` equals the key it is stored under — holds for
the initial empty store and is preserved by every operation: `create`
(with a fresh generated identifier, modeling `uuid.uuid4()`), `touch`,
and `clear` (`list` reads `SESSIONS.values()` and does not modify the
store at all, so it preserves the invariant by construction). -/
theorem claim_C9_session_invariant :
    session_inv [] ∧
    (∀ store sid payload t1 t2, session_inv store → sid ∉ store.map Prod.fst →
      session_inv (create_session store sid payload t1 t2).1) ∧
    (∀ store sid now, session_inv store →
      session_inv (touch_session store sid now).1) ∧
    (∀ store, session_inv store → session_inv (clear_sessions store)) := by
  refine ⟨⟨List.nodup_nil, fun kv h => absurd h (List.not_mem_nil kv)⟩, ?_, ?_, ?_⟩
  · intro store sid payload t1 t2 hinv hfresh
    show session_inv (dict_set store sid _)
    rw [dict_set_fresh store sid _ hfresh]
    constructor
    · rw [List.map_append]
      refine List.Nodup.append hinv.1 (List.nodup_singleton sid) ?_
      intro a ha hak
      rw [List.mem_singleton.mp hak] at ha
      exact hfresh ha
    · intro kv hkv
      rcases List.mem_append.mp hkv with hold | hnew
      · exact hinv.2 kv hold
      · rw [List.mem_singleton.mp hnew]
  · intro store sid now hinv
    by_cases hsome : (dict_lookup store sid).isSome = true
    · rw [touch_session, if_pos hsome]
      constructor
      · show ((store.map (touch_update sid now)).map Prod.fst).Nodup
        rw [map_preserving_fst_keys store (touch_update sid now) (touch_update_fst sid now)]
        exact hinv.1
      · intro kv hkv
        obtain ⟨kv', hkv'_mem, hkv'_eq⟩ := List.mem_map.mp hkv
        rw [← hkv'_eq]
        obtain ⟨k', s⟩ := kv'
        by_cases h : k' = sid
        · rw [touch_update_self sid now k' s h]
          exact hinv.2 (k', s) hkv'_mem
        · rw [touch_update_other sid now k' s h]
          exact hinv.2 (k', s) hkv'_mem
    · rw [touch_session, if_neg hsome]
      exact hinv
  · intro store _
    exact ⟨List.nodup_nil, fun kv h => absurd h (List.not_mem_nil kv)⟩

/-- C9 (witness): the invariant after creating a session in the empty
store and touching it. -/
theorem claim_C9_session_invariant_witness :
    session_inv [] ∧
    session_inv (create_session [] "a" [] 0 0).1 ∧
    session_inv (touch_session (create_session [] "a" [] 0 0).1 "a" 5).1 := by
  have h0 := claim_C9_session_invariant.1
  have h1 := claim_C9_session_invariant.2.1 [] "a" [] 0 0 h0 (by simp)
  have h2 := claim_C9_session_invariant.2.2.1 (create_session [] "a" [] 0 0).1 "a" 5 h1
  exact ⟨h0, h1, h2⟩

/-! ## C10: dashboard source fallback -/

/-- C10 (counterexample): as stated the claim is false for the empty
source identifier on `GET /dashboard/schema`: `""` is not a defined data
source, yet the handler echoes `"global-trade"` (because
`source or "global-trade"` treats the empty string as falsy), not the
caller's identifier. -/
theorem claim_C10_counterexample :
    dict_lookup DASHBOARD_DATA_SOURCES "" = none ∧
    (dashboard_schema_handler (some "")).1 ≠ "" :=
  ⟨rfl, by decide⟩

/-- C10 (amended): a request whose source identifier is not one of the
two defined data sources does not fail — the handler silently
substitutes the `global-trade` source and computes over its table.
`/dashboard/query` and `/dashboard/options` always echo the caller's
identifier; `/dashboard/schema` echoes it when it is non-empty but
echoes `"global-trade"` when the supplied identifier is empty (`""` is
falsy, so `source or "global-trade"` replaces it before the response is
built). -/
theorem claim_C10_source_fallback (s : String)
    (h1 : s ≠ "global-trade") (h2 : s ≠ "manufacturing-risk") :
    (s ≠ "" → dashboard_schema_handler (some s) =
      (s, infer_dashboard_schema global_trade.rows)) ∧
    dashboard_schema_handler (some "") =
      ("global-trade", infer_dashboard_schema global_trade.rows) ∧
    (∀ w p f, query_dashboard_data ⟨s, w, p, f⟩ =
      (query_dashboard_data ⟨"global-trade", w, p, f⟩).map
        (fun r => { r with source := s })) ∧
    (∀ c f, get_dashboard_options ⟨s, c, f⟩ =
      (get_dashboard_options ⟨"global-trade", c, f⟩).map
        (fun r => { r with source := s })) := by
  have hlk : dict_lookup DASHBOARD_DATA_SOURCES s = none := by
    show dict_lookup [("global-trade", global_trade),
      ("manufacturing-risk", manufacturing_risk)] s = none
    rw [dict_lookup_cons, if_neg (fun hh => h1 hh.symm),
      dict_lookup_cons, if_neg (fun hh => h2 hh.symm)]
    rfl
  have hsrc : get_dashboard_source s = global_trade := by
    rw [get_dashboard_source, hlk]
  have hgt : get_dashboard_source "global-trade" = global_trade := rfl
  refine ⟨?_, rfl, ?_, ?_⟩
  · intro hs
    simp [dashboard_schema_handler, hs, hsrc]
  · intro w p f
    simp only [query_dashboard_data, hsrc, hgt]
    cases hap : apply_dashboard_filters global_trade.rows (f.getD []) with
    | error e =>
      simp [Except.map, Except.bind, Bind.bind, Functor.map, Except.pure, Pure.pure, Except.instMonad, hap]
    | ok rows =>
      cases hbd : build_dashboard_response w rows p with
      | error e =>
        simp [Except.map, Except.bind, Bind.bind, Functor.map, Except.pure, Pure.pure, Except.instMonad, hap, hbd]
      | ok d =>
        simp [Except.map, Except.bind, Bind.bind, Functor.map, Except.pure, Pure.pure, Except.instMonad, hap, hbd]
  · intro c f
    simp only [get_dashboard_options, hsrc, hgt]
    cases hap : apply_dashboard_filters global_trade.rows
        ((f.getD []).filter (fun kv => kv.1 ≠ c)) with
    | error e =>
      simp [Except.map, Except.bind, Bind.bind, Functor.map, Except.pure, Pure.pure, Except.instMonad, hap]
    | ok rows =>
      simp [Except.map, Except.bind, Bind.bind, Functor.map, Except.pure, Pure.pure, Except.instMonad, hap]

/-- C10 (witness): the unknown identifier "xyz" — all three handlers
compute over the global-trade table while echoing "xyz". -/
theorem claim_C10_source_fallback_witness :
    dashboard_schema_handler (some "xyz") =
      ("xyz", infer_dashboard_schema global_trade.rows) ∧
    query_dashboard_data ⟨"xyz", "table", "", none⟩ =
      (query_dashboard_data ⟨"global-trade", "table", "", none⟩).map
        (fun r => { r with source := "xyz" }) ∧
    get_dashboard_options ⟨"xyz", "region", none⟩ =
      (get_dashboard_options ⟨"global-trade", "region", none⟩).map
        (fun r => { r with source := "xyz" }) := by
  have h := claim_C10_source_fallback "xyz" (by decide) (by decide)
  exact ⟨h.1 (by decide), h.2.2.1 "table" "" none, h.2.2.2 "region" none⟩

/-! ## C1, C2, C3: the `/stream` responder -/

/-- C1: a `/stream` request with no HITL action result, whose client
never disconnects (the poll oracle is constantly false), produces
exactly this fixed ordered sequence of events: a start event with
`total_steps` 3; the step-1 marker "Plan overview"; the three narration
chunks of step 1; the step-2 marker "Prepare table payload"; the step-3
marker "Finalize"; and a final done event whose meta carries the HITL
approval prompt, the hardcoded two-row product table serialized as
`tableDataString`, and the suggested queries — everything is independent
of the input text except the suggested-queries selection
(`build_suggested_queries input_text`). -/
theorem claim_C1_plan_stream (input_text : String) :
    stream_events none input_text (fun _ => false) =
      [.start 3,
       .step "Plan overview" 1,
       .text "I will propose a table schema for your products. " 1 "Plan overview",
       .text "First I will list columns and types. " 1 "Plan overview",
       .text "Then I will return the full table payload for rendering." 1 "Plan overview",
       .step "Prepare table payload" 2,
       .step "Finalize" 3,
       .done
         { hitl :=
             { type := "binary"
               title := "Review and approve data model plan"
               message := "Provide the final details, then submit the approval."
               options := some
                 [{ id := "approve_plan", label := "Approve",
                    description := some "Approve and continue.",
                    style := some [("variant", "primary")] },
                  { id := "edit_schema", label := "Edit Schema",
                    description := some "Make changes before approval.",
                    style := some [("variant", "secondary")] }]
               fields := none
               style := some [("variant", "card")]
               metadata := some
                 [("hint", "Choose Approve to continue, or Edit Schema to revise first.")] }
           tableDataString := table_data_string
           suggestedQueries := build_suggested_queries input_text }] := rfl

/-- C2: a `/stream` request carrying a `hitlActionResult` emits no plan
events and exactly one done event echoing the received result, with a
suggested-queries list selected by string match on the action
identifier: `submit_form` yields the form-specific four-item list,
`modify`/`edit_schema` yield the edit-specific four-item list, and every
other identifier yields the default four-item list. -/
theorem claim_C2_hitl_echo (result : HITLActionResultM) (input_text : String)
    (d : Nat → Bool) :
    stream_events (some result) input_text d =
      [.hitl_done "HITL action result received." result
        (hitl_suggested_queries result.actionId)] ∧
    (hitl_suggested_queries "submit_form").map (fun q => q.id) =
      ["sq_generate_sql", "sq_edit_schema", "sq_validate_model", "sq_seed_data"] ∧
    (hitl_suggested_queries "modify").map (fun q => q.id) =
      ["sq_generate_sql", "sq_edit_schema", "sq_compare_versions",
       "sq_collect_requirements"] ∧
    hitl_suggested_queries "edit_schema" = hitl_suggested_queries "modify" ∧
    (∀ a, a ≠ "submit_form" → a ≠ "modify" → a ≠ "edit_schema" →
      (hitl_suggested_queries a).map (fun q => q.id) =
        ["sq_generate_sql", "sq_edit_schema", "sq_refine_constraints", "sq_add_indexes"]) ∧
    (∀ a, (hitl_suggested_queries a).length = 4) := by
  refine ⟨rfl, rfl, rfl, rfl, ?_, ?_⟩
  · intro a ha1 ha2 ha3
    rw [hitl_suggested_queries, if_neg ha1, if_neg (by simp [ha2, ha3])]
    rfl
  · intro a
    rw [hitl_suggested_queries]
    by_cases h1 : a = "submit_form"
    · rw [if_pos h1]; rfl
    · rw [if_neg h1]
      by_cases h2 : a = "modify" ∨ a = "edit_schema"
      · rw [if_pos h2]; rfl
      · rw [if_neg h2]; rfl

/-- C2 (witness): the echo at a concrete action result whose id is
neither `submit_form` nor `modify`/`edit_schema`, hence the default
list. -/
theorem claim_C2_hitl_echo_witness :
    stream_events (some ⟨"approve_plan", none, none, none, none⟩) "" (fun _ => false) =
      [.hitl_done "HITL action result received."
        ⟨"approve_plan", none, none, none, none⟩
        (hitl_suggested_queries "approve_plan")] ∧
    (hitl_suggested_queries "approve_plan").map (fun q => q.id) =
      ["sq_generate_sql", "sq_edit_schema", "sq_refine_constraints", "sq_add_indexes"] := by
  have h := claim_C2_hitl_echo ⟨"approve_plan", none, none, none, none⟩ "" (fun _ => false)
  exact ⟨h.1, h.2.2.2.2.1 "approve_plan" (by decide) (by decide) (by decide)⟩

/-- C3 (counterexample): the claim that the responder checks for
disconnect between every pair of emitted events is false: the concrete
trace of a never-disconnecting stream has consecutive emissions with no
poll between them (for instance the start event and the step-1 marker,
and every emission from the third narration chunk to the final done
event). -/
theorem claim_C3_counterexample :
    checked_between_emits false (event_stream_trace "x" (fun _ => false)) = false := rfl

/-- C3 (amended): during a non-HITL `/stream` response the responder
polls for client disconnect exactly once before each of the three
narration chunks of step 1 (not between every pair of emitted events),
and a positive poll makes the generator return at once, emitting
nothing further — the trace ends at the failing poll.  The four cases
cover every disconnect behavior of the client. -/
theorem claim_C3_disconnect_checks (input_text : String) (d : Nat → Bool) :
    (d 0 = true → event_stream_trace input_text d =
      [.emit (.start 3), .emit (.step "Plan overview" 1), .check]) ∧
    (d 0 = false → d 1 = true → event_stream_trace input_text d =
      [.emit (.start 3), .emit (.step "Plan overview" 1), .check,
       .emit (.text "I will propose a table schema for your products. " 1 "Plan overview"),
       .check]) ∧
    (d 0 = false → d 1 = false → d 2 = true → event_stream_trace input_text d =
      [.emit (.start 3), .emit (.step "Plan overview" 1), .check,
       .emit (.text "I will propose a table schema for your products. " 1 "Plan overview"),
       .check,
       .emit (.text "First I will list columns and types. " 1 "Plan overview"),
       .check]) ∧
    (d 0 = false → d 1 = false → d 2 = false → event_stream_trace input_text d =
      [.emit (.start 3), .emit (.step "Plan overview" 1), .check,
       .emit (.text "I will propose a table schema for your products. " 1 "Plan overview"),
       .check,
       .emit (.text "First I will list columns and types. " 1 "Plan overview"),
       .check,
       .emit (.text "Then I will return the full table payload for rendering." 1 "Plan overview"),
       .emit (.step "Prepare table payload" 2), .emit (.step "Finalize" 3),
       .emit (done_event input_text)]) := by
  refine ⟨?_, ?_, ?_, ?_⟩
  · intro h0
    simp [event_stream_trace, chunk_loop_trace, plan_chunks, h0]
  · intro h0 h1
    simp [event_stream_trace, chunk_loop_trace, plan_chunks, h0, h1, text_event]
  · intro h0 h1 h2
    simp [event_stream_trace, chunk_loop_trace, plan_chunks, h0, h1, h2, text_event]
  · intro h0 h1 h2
    simp [event_stream_trace, chunk_loop_trace, plan_chunks, h0, h1, h2, text_event]

/-- C3 (witness): a client that disconnects at the second poll — the
stream stops right after the first narration chunk. -/
theorem claim_C3_disconnect_checks_witness :
    event_stream_trace "hello" (fun n => n == 1) =
      [.emit (.start 3), .emit (.step "Plan overview" 1), .check,
       .emit (.text "I will propose a table schema for your products. " 1 "Plan overview"),
       .check] :=
  (claim_C3_disconnect_checks "hello" (fun n => n == 1)).2.1 rfl rfl

end CitiForge
